import Mathlib

/-
Verification of the session-manager backend (src/backend/server.js).

The server is a single-threaded Express process.  Its mutable state is:
  - the JSON user file (`users.json`), modelled as a `List User`;
  - the process-wide `whatsappClients` Map (server.js:32), modelled as an
    association list from userId to the client object;
  - the per-user storage directory `userData/<userId>/`, of which the only
    file the server itself writes is `qr-code.png` (server.js:381-383),
    modelled as an association list from userId to the stored bytes.

WhatsApp client objects (`new Client(...)`, server.js:75-84) are external
library objects; the server reads their `isReady` and `info` fields.  We
model a client as a record with those observable fields plus an allocation
id so that distinct constructions are distinguishable.  All handler bodies
are translated statement by statement from server.js; the JS functions in
question are synchronous except where an `await` is noted, so sequential
state passing is the faithful semantics.
-/

/-- Profile info the server reads off a ready client (`client.info`,
server.js:367-370, 472-475): pushname, wid.user, platform. -/
structure ConnectionInfo where
  name : String
  phone : String
  platform : String
deriving DecidableEq

/-- Observable state of a whatsapp-web.js `Client` object.  `id` is an
allocation counter distinguishing distinct `new Client(...)` constructions;
a freshly constructed client has `isReady = false` and no `info`. -/
structure WClient where
  id : Nat
  isReady : Bool
  info : Option ConnectionInfo
deriving DecidableEq

/-- A record of `users.json` (server.js:214-220). -/
structure User where
  userId : String
  email : String
  password : String
  createdAt : String
  updatedAt : String
deriving DecidableEq

/-- A user record with the `password` field stripped, as returned by the
endpoints (`const \x7b password, ...userWithoutPassword \x7d = user`). -/
structure PublicUser where
  userId : String
  email : String
  createdAt : String
  updatedAt : String
deriving DecidableEq

/-- Drop the password field (the `...userWithoutPassword` rest pattern,
server.js:234, 284, 307, 340). -/
def stripPassword (u : User) : PublicUser :=
  { userId := u.userId, email := u.email, createdAt := u.createdAt, updatedAt := u.updatedAt }

/-- Lookup in a JS `Map` modelled as an association list (`Map.get`). -/
def mapGet {α : Type} (k : String) (m : List (String × α)) : Option α :=
  (m.find? (fun p => p.1 == k)).map (fun p => p.2)

/-- `Map.delete`: remove the binding for `k`. -/
def mapDelete {α : Type} (k : String) (m : List (String × α)) : List (String × α) :=
  m.filter (fun p => p.1 != k)

/-- `Map.set`: bind `k` to `v` (bindings are unique per key). -/
def mapSet {α : Type} (k : String) (v : α) (m : List (String × α)) : List (String × α) :=
  (k, v) :: mapDelete k m

/-- Whole-process server state: the users file, the `whatsappClients` Map,
the allocation counter for client constructions, and the per-user
`qr-code.png` files on disk. -/
structure ServerState where
  users : List User
  whatsappClients : List (String × WClient)
  nextClientId : Nat
  qrFiles : List (String × List Nat)
deriving DecidableEq

/-- `createWhatsAppClient` (server.js:67-87): constructs a fresh `Client`
for the user (it also mkdirs the storage directory; the only observable
effect modelled is the fresh client object). -/
def createWhatsAppClient (s : ServerState) : WClient × ServerState :=
  ({ id := s.nextClientId, isReady := false, info := none },
   { s with nextClientId := s.nextClientId + 1 })

/-- `getOrCreateWhatsAppClient` (server.js:89-95): construct and register a
client only when the Map has no entry for `userId`, then return the Map
entry.  The JS function is synchronous (no `await`), so calls are
serialized by the Node event loop and sequential composition models
concurrent HTTP requests faithfully. -/
def getOrCreateWhatsAppClient (userId : String) (s : ServerState) : WClient × ServerState :=
  match mapGet userId s.whatsappClients with
  | some c => (c, s)
  | none =>
    let p := createWhatsAppClient s
    (p.1, { p.2 with whatsappClients := mapSet userId p.1 p.2.whatsappClients })

/-- `authenticateUser` middleware check (server.js:98-121): the userId must
belong to a record in the users file. -/
def userExists (userId : String) (s : ServerState) : Bool :=
  s.users.any (fun u => u.userId == userId)

/-- A JSON response carrying an HTTP status code, the `status` tag string,
and the optional `connectionInfo` object. -/
structure ApiResponse where
  httpStatus : Nat
  status : String
  connectionInfo : Option ConnectionInfo
deriving DecidableEq

/-- GET `/api/users/:userId/whatsapp/status` (server.js:463-492), including
the `authenticateUser` middleware.  The handler calls
`getOrCreateWhatsAppClient` (so it may construct a client) and reports
`connected` when `client.isReady && client.info`, else `disconnected`.
The `connectedAt` timestamp field is omitted (wall clock). -/
def statusEndpoint (userId : String) (s : ServerState) : ApiResponse × ServerState :=
  if userExists userId s then
    let p := getOrCreateWhatsAppClient userId s
    if p.1.isReady && p.1.info.isSome then
      ({ httpStatus := 200, status := "connected", connectionInfo := p.1.info }, p.2)
    else
      ({ httpStatus := 200, status := "disconnected", connectionInfo := none }, p.2)
  else
    ({ httpStatus := 404, status := "error", connectionInfo := none }, s)

/-- Result of GET `/api/users/:userId/whatsapp/qr-image`. -/
inductive QrImageResult where
  | file (bytes : List Nat)
  | notFound
  | userNotFound
deriving DecidableEq

/-- GET `/api/users/:userId/whatsapp/qr-image` (server.js:441-460), with the
`authenticateUser` middleware: send the on-disk `qr-code.png` bytes when the
file exists, else a 404. -/
def qrImageEndpoint (userId : String) (s : ServerState) : QrImageResult :=
  if userExists userId s then
    match mapGet userId s.qrFiles with
    | some bytes => QrImageResult.file bytes
    | none => QrImageResult.notFound
  else
    QrImageResult.userNotFound

/-- POST `/api/users/:userId/whatsapp/disconnect` (server.js:495-526), with
middleware.  `destroyThrows` models `await client.destroy()` rejecting: the
whole handler body is inside `try`, so a rejection jumps to the `catch`
(500 response) and the Map delete and `fs.rmSync` never run.  On success the
entry is deleted and the storage directory (with `qr-code.png`) removed. -/
def disconnectEndpoint (userId : String) (destroyThrows : Bool) (s : ServerState) :
    ApiResponse × ServerState :=
  if userExists userId s then
    match mapGet userId s.whatsappClients with
    | some _ =>
      if destroyThrows then
        ({ httpStatus := 500, status := "error", connectionInfo := none }, s)
      else
        ({ httpStatus := 200, status := "success", connectionInfo := none },
         { s with whatsappClients := mapDelete userId s.whatsappClients,
                  qrFiles := mapDelete userId s.qrFiles })
    | none => ({ httpStatus := 200, status := "success", connectionInfo := none }, s)
  else
    ({ httpStatus := 404, status := "error", connectionInfo := none }, s)

/-- Atomic steps of the disconnect handler body, in program order
(server.js:500-508): `await client.destroy()` begins, then either resolves
or rejects; on resolution the Map entry is deleted and, if the storage
directory exists, `fs.rmSync` removes it; finally a response is sent. -/
inductive DestroyAction where
  | destroyBegin
  | destroyEnd
  | destroyThrow
  | registryDelete
  | storageRemove
  | respond
deriving DecidableEq

/-- The sequence of steps the disconnect handler executes, as a function of
whether a client is registered, whether `client.destroy()` rejects, and
whether the storage directory exists (server.js:498-519). -/
def disconnectTrace (clientPresent destroyThrows storageExists : Bool) : List DestroyAction :=
  if clientPresent then
    if destroyThrows then
      [DestroyAction.destroyBegin, DestroyAction.destroyThrow, DestroyAction.respond]
    else
      [DestroyAction.destroyBegin, DestroyAction.destroyEnd, DestroyAction.registryDelete] ++
        (if storageExists then [DestroyAction.storageRemove] else []) ++
        [DestroyAction.respond]
  else
    [DestroyAction.respond]

/-- `storageRemove` occurs nowhere before the shutdown has completed: the
trace contains no `storageRemove` ahead of the first `destroyEnd`. -/
def noRemoveBeforeShutdown : List DestroyAction → Bool
  | [] => true
  | DestroyAction.destroyEnd :: _ => true
  | DestroyAction.storageRemove :: _ => false
  | _ :: rest => noRemoveBeforeShutdown rest

/-- The `disconnected` event handler (server.js:415-418): its body is a
single `console.log`; it does not touch the client Map, the users file or
the stored qr image. -/
def onDisconnectedHandler (userId : String) (s : ServerState) : ServerState :=
  s

/-- The `auth_failure` event handler (server.js:421-424): its body is a
single `console.log`; it mutates no server state. -/
def onAuthFailureHandler (userId : String) (s : ServerState) : ServerState :=
  s

/-- Response of the QR endpoint: the `status` tag and the inline data-URL
image when present. -/
structure QrResponse where
  status : String
  qrCode : Option String
deriving DecidableEq

/-- The `qr` event handler (server.js:376-399): render the raw payload `qr`
twice (`qrcode.toDataURL qr` for the inline response, `qrcode.toBuffer qr`
for the file), write the buffer to `userData/<userId>/qr-code.png`, and
respond `qr_ready` with the data URL.  The renderers are the external
`qrcode` library, passed in as functions; the handler gives them only the
raw payload. -/
def onQrHandler (render : String → List Nat) (renderURL : String → String)
    (userId : String) (qr : String) (s : ServerState) : QrResponse × ServerState :=
  ({ status := "qr_ready", qrCode := some (renderURL qr) },
   { s with qrFiles := mapSet userId (render qr) s.qrFiles })

/-- GET `/api/users/:userId/whatsapp/qr` (server.js:356-438), with
middleware.  If `client.info` is set the handler answers `connected` at
once; otherwise it registers listeners and the response is produced by the
`qr` event callback when the client emits a payload (`qrEvent`); if no
payload is ever emitted the response stays open (`none`). -/
def qrEndpoint (render : String → List Nat) (renderURL : String → String)
    (userId : String) (qrEvent : Option String) (s : ServerState) :
    Option QrResponse × ServerState :=
  if userExists userId s then
    let p := getOrCreateWhatsAppClient userId s
    match p.1.info with
    | some _ => (some { status := "connected", qrCode := none }, p.2)
    | none =>
      match qrEvent with
      | some qr =>
        let r := onQrHandler render renderURL userId qr p.2
        (some r.1, r.2)
      | none => (none, p.2)
  else
    (some { status := "error", qrCode := none }, s)

/-- The six session-state names of the specification. -/
def specStates : List String :=
  ["uninitialized", "pairing", "authenticated", "ready", "disconnected", "auth_failed"]

/-- Whitespace characters matched by the regex class `\s` (ASCII range). -/
def isJsSpace (c : Char) : Bool :=
  c = ' ' || c = '\t' || c = '\n' || c = '\r' || c = '\x0b' || c = '\x0c'

/-- Does the character list contain a dot with at least one character
strictly after it (a dot that is not the last element)? -/
def hasDotNotLast : List Char → Bool
  | [] => false
  | [_] => false
  | c :: rest => if c = '.' then true else hasDotNotLast rest

/-- Does the list contain a dot with at least one character strictly before
and strictly after it? -/
def hasInnerDot : List Char → Bool
  | [] => false
  | _ :: rest => hasDotNotLast rest

/-- `isValidEmail` (server.js:40-43): the anchored regex
    `^[^\s@]+@[^\s@]+\.[^\s@]+$`.
A string matches iff it splits as A ++ "@" ++ D where A is nonempty and
free of whitespace and `@`, and D (also nonempty, whitespace- and `@`-free)
can be split as B ++ "." ++ C with B and C nonempty.  Since every character
class excludes `@`, the string must contain exactly one `@`, and the split
of D exists iff D has a dot that is neither its first nor its last
character. -/
def isValidEmail (s : String) : Bool :=
  let l := s.toList
  l.count '@' == 1 &&
    (let a := l.takeWhile (fun c => c != '@')
     let d := (l.dropWhile (fun c => c != '@')).drop 1
     !a.isEmpty && a.all (fun c => !isJsSpace c) &&
       d.all (fun c => !isJsSpace c) && hasInnerDot d)

/-- JS falsiness of a string-valued request-body field: absent
(`undefined`) or the empty string. -/
def falsyStr : Option String → Bool
  | none => true
  | some s => s.isEmpty

/-- Result of POST `/api/users/register`. -/
inductive RegisterResult where
  | badRequest (message : String)
  | conflict (message : String)
  | serverError (message : String)
  | created (user : PublicUser)
deriving DecidableEq

/-- POST `/api/users/register` (server.js:174-248).  `genId` and `now`
stand for `crypto.randomUUID()` and `new Date().toISOString()`; `writeOk`
models whether `writeUsersToFile` succeeds.  Returns the response and the
resulting durable user store (the JSON file, which is unchanged on every
path that does not write successfully). -/
def registerEndpoint (genId now : String) (writeOk : Bool)
    (emailField pwField : Option String) (users : List User) :
    RegisterResult × List User :=
  if falsyStr emailField || falsyStr pwField then
    (RegisterResult.badRequest "Email and password are required", users)
  else
    let email := emailField.getD ""
    let password := pwField.getD ""
    if !isValidEmail email then
      (RegisterResult.badRequest "Please provide a valid email address", users)
    else if password.length < 6 then
      (RegisterResult.badRequest "Password must be at least 6 characters long", users)
    else if (users.find? (fun u => u.email == email)).isSome then
      (RegisterResult.conflict "User with this email already exists", users)
    else
      let newUser : User :=
        { userId := genId, email := email, password := password,
          createdAt := now, updatedAt := now }
      if writeOk then
        (RegisterResult.created (stripPassword newUser), users ++ [newUser])
      else
        (RegisterResult.serverError "Failed to save user data", users)

/-- Result of POST `/api/users/login`. -/
inductive LoginResult where
  | badRequest (message : String)
  | unauthorized (message : String)
  | ok (user : PublicUser)
deriving DecidableEq

/-- POST `/api/users/login` (server.js:251-298): find the user by email,
compare the stored password, and return the record without its password. -/
def loginEndpoint (emailField pwField : Option String) (users : List User) : LoginResult :=
  if falsyStr emailField || falsyStr pwField then
    LoginResult.badRequest "Email and password are required"
  else
    let email := emailField.getD ""
    let password := pwField.getD ""
    match users.find? (fun u => u.email == email) with
    | none => LoginResult.unauthorized "Invalid email or password"
    | some u =>
      if u.password == password then LoginResult.ok (stripPassword u)
      else LoginResult.unauthorized "Invalid email or password"

/-- Response of GET `/api/users` (server.js:301-321). -/
structure UsersListResponse where
  status : String
  users : List PublicUser
  count : Nat
deriving DecidableEq

/-- GET `/api/users` (server.js:301-321): every stored record with its
password stripped, plus the count. -/
def getAllUsersEndpoint (users : List User) : UsersListResponse :=
  let pub := users.map stripPassword
  { status := "success", users := pub, count := pub.length }

/-- Result of GET `/api/users/:userId`. -/
inductive UserByIdResult where
  | found (user : PublicUser)
  | notFound
deriving DecidableEq

/-- GET `/api/users/:userId` (server.js:324-353): find by userId, strip the
password, or 404. -/
def getUserByIdEndpoint (userId : String) (users : List User) : UserByIdResult :=
  match users.find? (fun u => u.userId == userId) with
  | some u => UserByIdResult.found (stripPassword u)
  | none => UserByIdResult.notFound

/-- Two user records that agree on everything except possibly the stored
password. -/
def samePublicData (u v : User) : Prop :=
  u.userId = v.userId ∧ u.email = v.email ∧ u.createdAt = v.createdAt ∧ u.updatedAt = v.updatedAt

/-- Every client registered in the Map was allocated below the counter:
holds of every reachable state and is preserved by all operations. -/
def clientIdsFresh (s : ServerState) : Bool :=
  s.whatsappClients.all (fun p => p.2.id < s.nextClientId)

/-- A client object as freshly constructed (allocation id 0). -/
def clientA : WClient :=
  { id := 0, isReady := false, info := none }

/-- Sample profile info carried by a ready client. -/
def infoA : ConnectionInfo :=
  { name := "Alice", phone := "15550001111", platform := "android" }

/-- A client in the fully connected condition (`isReady` with `info`). -/
def clientReadyA : WClient :=
  { id := 0, isReady := true, info := some infoA }

/-- A registered account record for identity `u1`. -/
def userA : User :=
  { userId := "u1", email := "a@b.co", password := "secret1", createdAt := "t0", updatedAt := "t0" }

/-- Same account record as `userA` except for the stored password. -/
def userB : User :=
  { userId := "u1", email := "a@b.co", password := "other99", createdAt := "t0", updatedAt := "t0" }

/-- State with one registered account and no client yet. -/
def stEmpty : ServerState :=
  { users := [userA], whatsappClients := [], nextClientId := 0, qrFiles := [] }

/-- State where identity `u1` has a constructed, not yet ready client. -/
def stWithClient : ServerState :=
  { users := [userA], whatsappClients := [("u1", clientA)], nextClientId := 1, qrFiles := [] }

/-- State where the client of `u1` is ready with profile info. -/
def stReady : ServerState :=
  { users := [userA], whatsappClients := [("u1", clientReadyA)], nextClientId := 1, qrFiles := [] }

/-- State where `u1` has a client and a stored `qr-code.png` artifact. -/
def stWithQr : ServerState :=
  { users := [userA], whatsappClients := [("u1", clientA)], nextClientId := 1,
    qrFiles := [("u1", [1, 2, 3])] }

/-- The QR response produced by the handler for raw payload `raw` under the
identity renderers. -/
def qrResp0 : QrResponse :=
  { status := "qr_ready", qrCode := some "raw" }

theorem mapGet_set_self {α : Type} (k : String) (v : α) (m : List (String × α)) :
    mapGet k (mapSet k v m) = some v := by
  simp [mapGet, mapSet]

theorem mapGet_delete_self {α : Type} (k : String) (m : List (String × α)) :
    mapGet k (mapDelete k m) = none := by
  have hf : (List.filter (fun p => p.1 != k) m).find? (fun p => p.1 == k) = none := by
    rw [List.find?_eq_none]
    intro x hx
    have hfx := List.of_mem_filter hx
    simp only [bne_iff_ne, ne_eq] at hfx
    simpa using hfx
  simp [mapGet, mapDelete, hf]

theorem mapGet_some_mem {α : Type} {k : String} {m : List (String × α)} {v : α}
    (h : mapGet k m = some v) : (k, v) ∈ m := by
  unfold mapGet at h
  cases hf : m.find? (fun p => p.1 == k) with
  | none => rw [hf] at h; simp at h
  | some p =>
    rw [hf] at h
    obtain ⟨a, b⟩ := p
    have hmem := List.mem_of_find?_eq_some hf
    have hpk := List.find?_some hf
    simp only [beq_iff_eq] at hpk
    simp at h
    rw [← hpk, ← h]
    exact hmem

theorem stripPassword_eq_of_same {u v : User} (h : samePublicData u v) :
    stripPassword u = stripPassword v := by
  obtain ⟨h1, h2, h3, h4⟩ := h
  simp [stripPassword, h1, h2, h3, h4]

theorem map_stripPassword_eq {l1 l2 : List User}
    (h : List.Forall₂ samePublicData l1 l2) :
    l1.map stripPassword = l2.map stripPassword := by
  induction l1 generalizing l2 with
  | nil => cases h; rfl
  | cons a t1 ih =>
    cases h with
    | cons h1 h2 =>
      rename_i b t2
      simp only [List.map_cons]
      rw [stripPassword_eq_of_same h1, ih h2]

theorem find_by_id_strip_eq (uid : String) {l1 l2 : List User}
    (h : List.Forall₂ samePublicData l1 l2) :
    (l1.find? (fun u => u.userId == uid)).map stripPassword =
      (l2.find? (fun u => u.userId == uid)).map stripPassword := by
  induction l1 generalizing l2 with
  | nil => cases h; rfl
  | cons a t1 ih =>
    cases h with
    | cons h1 h2 =>
      rename_i b t2
      obtain ⟨hid, he, hc, hup⟩ := h1
      simp only [List.find?_cons]
      rw [hid]
      cases hbx : (b.userId == uid) with
      | true => simp [stripPassword_eq_of_same ⟨hid, he, hc, hup⟩]
      | false => simpa using ih h2

theorem find_by_email_isSome_eq (email : String) {l1 l2 : List User}
    (h : List.Forall₂ samePublicData l1 l2) :
    (l1.find? (fun u => u.email == email)).isSome =
      (l2.find? (fun u => u.email == email)).isSome := by
  induction l1 generalizing l2 with
  | nil => cases h; rfl
  | cons a t1 ih =>
    cases h with
    | cons h1 h2 =>
      rename_i b t2
      obtain ⟨hid, he, hc, hup⟩ := h1
      simp only [List.find?_cons]
      rw [he]
      cases hbx : (b.email == email) with
      | true => simp
      | false => simpa using ih h2

/-- C1: for every identity, `getOrCreateWhatsAppClient` constructs a client
only when the `whatsappClients` Map has no entry for it (an existing entry
is returned with the state unchanged; a missing entry causes exactly one
construction, registered under the identity), and a repeated call for the
same identity returns the very same client and state, so every call yields
a reference to the one client instance.  The JS function is synchronous, so
the Node event loop serializes concurrent calls and this sequential
statement covers them. -/
theorem getOrCreate_single_client (u : String) (s : ServerState) :
    (∀ c, mapGet u s.whatsappClients = some c → getOrCreateWhatsAppClient u s = (c, s)) ∧
    (mapGet u s.whatsappClients = none →
      (getOrCreateWhatsAppClient u s).2.nextClientId = s.nextClientId + 1 ∧
      mapGet u (getOrCreateWhatsAppClient u s).2.whatsappClients =
        some (getOrCreateWhatsAppClient u s).1) ∧
    getOrCreateWhatsAppClient u (getOrCreateWhatsAppClient u s).2 =
      getOrCreateWhatsAppClient u s := by
  refine ⟨?_, ?_, ?_⟩
  · intro c hc
    simp [getOrCreateWhatsAppClient, hc]
  · intro hc
    simp [getOrCreateWhatsAppClient, hc, createWhatsAppClient, mapGet_set_self]
  · cases hc : mapGet u s.whatsappClients with
    | some c => simp [getOrCreateWhatsAppClient, hc]
    | none =>
      simp [getOrCreateWhatsAppClient, hc, createWhatsAppClient, mapGet_set_self]

/-- Witness for C1: with a registered client the call returns it unchanged;
on a cold identity the constructed client is the registered one. -/
theorem getOrCreate_single_client_witness :
    getOrCreateWhatsAppClient "u1" stWithClient = (clientA, stWithClient) ∧
    mapGet "u1" (getOrCreateWhatsAppClient "u1" stEmpty).2.whatsappClients =
      some (getOrCreateWhatsAppClient "u1" stEmpty).1 :=
  ⟨(getOrCreate_single_client "u1" stWithClient).1 clientA (by decide),
   ((getOrCreate_single_client "u1" stEmpty).2.1 (by decide)).2⟩

/-- C2 counterexample: when `client.destroy()` throws during the disconnect
handler, the identity is NOT removed from the registry (the whole state is
unchanged, the entry is still present) and the failure is surfaced to the
caller as a 500 error response, contradicting the claim. -/
theorem disconnect_throw_keeps_entry :
    (disconnectEndpoint "u1" true stWithClient).2 = stWithClient ∧
    mapGet "u1" (disconnectEndpoint "u1" true stWithClient).2.whatsappClients = some clientA ∧
    (disconnectEndpoint "u1" true stWithClient).1.httpStatus = 500 ∧
    (disconnectEndpoint "u1" true stWithClient).1.status = "error" := by
  decide

/-- C2 amended: if during disconnect the client shutdown throws, the `catch`
is reached before the Map delete runs, so the identity keeps its registry
entry, the whole server state is unchanged, the failure is surfaced as a
500 error response, and an immediately following `getOrCreate` returns the
very same (failed) client rather than a fresh one. -/
theorem disconnect_throw_amended (s : ServerState) (u : String) (c : WClient)
    (hu : userExists u s = true) (hc : mapGet u s.whatsappClients = some c) :
    disconnectEndpoint u true s =
      ({ httpStatus := 500, status := "error", connectionInfo := none }, s) ∧
    getOrCreateWhatsAppClient u s = (c, s) := by
  constructor
  · simp [disconnectEndpoint, hu, hc]
  · simp [getOrCreateWhatsAppClient, hc]

/-- Witness for the amended C2 at a concrete state. -/
theorem disconnect_throw_amended_witness :
    disconnectEndpoint "u1" true stWithClient =
      ({ httpStatus := 500, status := "error", connectionInfo := none }, stWithClient) ∧
    getOrCreateWhatsAppClient "u1" stWithClient = (clientA, stWithClient) :=
  disconnect_throw_amended stWithClient "u1" clientA (by decide) (by decide)

/-- C3 counterexample: with a stored pairing artifact for `u1`, processing a
`disconnected` event (or an `auth_failure` event) leaves the artifact in
place — a subsequent artifact read still returns its bytes rather than
nothing, contradicting the claim that the artifact is cleared. -/
theorem disconnected_event_keeps_artifact :
    qrImageEndpoint "u1" (onDisconnectedHandler "u1" stWithQr) =
      QrImageResult.file [1, 2, 3] ∧
    qrImageEndpoint "u1" (onAuthFailureHandler "u1" stWithQr) =
      QrImageResult.file [1, 2, 3] := by
  decide

/-- C3 amended: the `disconnected` and `auth_failure` handlers only log:
they leave the entire server state — in particular the stored pairing
artifact, which stays readable — unchanged; nothing server-side clears
profile info or the artifact on these events. -/
theorem event_handlers_only_log (u : String) (s : ServerState) :
    onDisconnectedHandler u s = s ∧
    onAuthFailureHandler u s = s ∧
    qrImageEndpoint u (onDisconnectedHandler u s) = qrImageEndpoint u s ∧
    qrImageEndpoint u (onAuthFailureHandler u s) = qrImageEndpoint u s :=
  ⟨rfl, rfl, rfl, rfl⟩

/-- C4 counterexample: a status read on a ready, connected session returns
the tag "connected", which is not one of the six states named by the
specification, contradicting the claim that no other state value is ever
observable. -/
theorem status_value_outside_spec_states :
    (statusEndpoint "u1" stReady).1.status = "connected" ∧
    "connected" ∉ specStates := by
  decide

/-- C4 amended: the state values observable through the status and pairing
endpoints are drawn from \x7bconnected, disconnected, qr_ready, error\x7d:
a status read reports "connected" or "disconnected" (or "error" for an
unknown account), and a pairing request reports "connected" or "qr_ready"
(or "error"); the specification's six names, other than "disconnected",
never appear. -/
theorem observable_status_values (u : String) (s : ServerState)
    (render : String → List Nat) (renderURL : String → String) (qe : Option String) :
    ((statusEndpoint u s).1.status = "connected" ∨
      (statusEndpoint u s).1.status = "disconnected" ∨
      (statusEndpoint u s).1.status = "error") ∧
    (∀ r, (qrEndpoint render renderURL u qe s).1 = some r →
      r.status = "connected" ∨ r.status = "qr_ready" ∨ r.status = "error") := by
  constructor
  · by_cases hu : userExists u s = true
    · by_cases hb :
        ((getOrCreateWhatsAppClient u s).1.isReady &&
          (getOrCreateWhatsAppClient u s).1.info.isSome) = true
      · simp [statusEndpoint, hu, hb]
      · simp [statusEndpoint, hu, hb]
    · simp [statusEndpoint, hu]
  · intro r hr
    simp only [qrEndpoint] at hr
    by_cases hu : userExists u s = true
    · rw [if_pos hu] at hr
      cases hi : (getOrCreateWhatsAppClient u s).1.info with
      | some i =>
        simp only [hi] at hr
        simp at hr
        subst hr
        simp
      | none =>
        simp only [hi] at hr
        cases qe with
        | some q =>
          simp only [onQrHandler] at hr
          simp at hr
          subst hr
          simp
        | none => simp at hr
    · rw [if_neg hu] at hr
      simp at hr
      subst hr
      simp

/-- Witness for the amended C4: both conjuncts applied at concrete inputs,
the pairing conjunct at the response produced for payload "raw". -/
theorem observable_status_values_witness :
    ((statusEndpoint "u1" stEmpty).1.status = "connected" ∨
      (statusEndpoint "u1" stEmpty).1.status = "disconnected" ∨
      (statusEndpoint "u1" stEmpty).1.status = "error") ∧
    (qrResp0.status = "connected" ∨ qrResp0.status = "qr_ready" ∨
      qrResp0.status = "error") :=
  ⟨(observable_status_values "u1" stEmpty (fun _ => []) (fun q => q) none).1,
   (observable_status_values "u1" stEmpty (fun _ => []) (fun q => q) (some "raw")).2
     qrResp0 (by decide)⟩

/-- C5: in every execution of the disconnect handler, the storage-area
removal step never occurs before the client shutdown has completed: the
step trace contains no `storageRemove` ahead of the first `destroyEnd`
(in particular, none at all when the shutdown rejects). -/
theorem storage_remove_awaits_shutdown (p f e : Bool) :
    noRemoveBeforeShutdown (disconnectTrace p f e) = true := by
  revert p f e
  decide

/-- C6: from any reachable state (registered client ids are below the
allocation counter), a successful disconnect for an identity with a client
followed immediately by `getOrCreate` yields a client whose allocation id
differs from the destroyed client's — a newly constructed instance, never
the destroyed one — and that client is in the initial condition: not ready
and with no profile info. -/
theorem destroy_then_getOrCreate_fresh (s : ServerState) (u : String) (c : WClient)
    (hwf : clientIdsFresh s = true) (hu : userExists u s = true)
    (hc : mapGet u s.whatsappClients = some c) :
    (disconnectEndpoint u false s).1.status = "success" ∧
    (getOrCreateWhatsAppClient u (disconnectEndpoint u false s).2).1.id ≠ c.id ∧
    (getOrCreateWhatsAppClient u (disconnectEndpoint u false s).2).1.isReady = false ∧
    (getOrCreateWhatsAppClient u (disconnectEndpoint u false s).2).1.info = none := by
  have hs' : (disconnectEndpoint u false s).2 =
      { s with whatsappClients := mapDelete u s.whatsappClients,
               qrFiles := mapDelete u s.qrFiles } := by
    simp [disconnectEndpoint, hu, hc]
  have hresp : (disconnectEndpoint u false s).1.status = "success" := by
    simp [disconnectEndpoint, hu, hc]
  have hget : mapGet u (mapDelete u s.whatsappClients) = none := mapGet_delete_self u _
  have hcid : c.id < s.nextClientId := by
    have hmem := mapGet_some_mem hc
    have hall := List.all_eq_true.mp hwf (u, c) hmem
    simpa using hall
  refine ⟨hresp, ?_, ?_, ?_⟩
  · rw [hs']
    simp [getOrCreateWhatsAppClient, hget, createWhatsAppClient]
    omega
  · rw [hs']
    simp [getOrCreateWhatsAppClient, hget, createWhatsAppClient]
  · rw [hs']
    simp [getOrCreateWhatsAppClient, hget, createWhatsAppClient]

/-- Witness for C6 at a concrete state with a registered client. -/
theorem destroy_then_getOrCreate_fresh_witness :
    (disconnectEndpoint "u1" false stWithClient).1.status = "success" ∧
    (getOrCreateWhatsAppClient "u1" (disconnectEndpoint "u1" false stWithClient).2).1.id ≠
      clientA.id ∧
    (getOrCreateWhatsAppClient "u1" (disconnectEndpoint "u1" false stWithClient).2).1.isReady =
      false ∧
    (getOrCreateWhatsAppClient "u1" (disconnectEndpoint "u1" false stWithClient).2).1.info =
      none :=
  destroy_then_getOrCreate_fresh stWithClient "u1" clientA (by decide) (by decide) (by decide)

/-- C7: for an identity passing the account check, the pairing-image fetch
returns exactly the stored artifact bytes when the file exists and a
not-found result when it does not; and after a successful disconnect
(which removes the storage area) the fetch returns not-found. -/
theorem qr_image_matches_storage (s : ServerState) (u : String)
    (hu : userExists u s = true) :
    (∀ b, mapGet u s.qrFiles = some b → qrImageEndpoint u s = QrImageResult.file b) ∧
    (mapGet u s.qrFiles = none → qrImageEndpoint u s = QrImageResult.notFound) ∧
    (∀ c, mapGet u s.whatsappClients = some c →
      qrImageEndpoint u (disconnectEndpoint u false s).2 = QrImageResult.notFound) := by
  refine ⟨?_, ?_, ?_⟩
  · intro b hb
    simp [qrImageEndpoint, hu, hb]
  · intro hb
    simp [qrImageEndpoint, hu, hb]
  · intro c hc
    have hs' : (disconnectEndpoint u false s).2 =
        { s with whatsappClients := mapDelete u s.whatsappClients,
                 qrFiles := mapDelete u s.qrFiles } := by
      simp [disconnectEndpoint, hu, hc]
    rw [hs']
    simp [qrImageEndpoint, userExists] at hu ⊢
    simp [hu, mapGet_delete_self]

/-- Witness for C7: the fetch returns the stored bytes, and not-found right
after a successful disconnect. -/
theorem qr_image_matches_storage_witness :
    qrImageEndpoint "u1" stWithQr = QrImageResult.file [1, 2, 3] ∧
    qrImageEndpoint "u1" (disconnectEndpoint "u1" false stWithQr).2 =
      QrImageResult.notFound :=
  ⟨(qr_image_matches_storage stWithQr "u1" (by decide)).1 [1, 2, 3] (by decide),
   (qr_image_matches_storage stWithQr "u1" (by decide)).2.2 clientA (by decide)⟩

/-- C8: the `qr` handler passes only the raw payload to the renderer, so
the stored artifact is a deterministic function of the payload: rendering
the same payload for any two identities, in any two states, stores the
same bytes, and the inline responses coincide as well. -/
theorem qr_render_deterministic (render : String → List Nat) (renderURL : String → String)
    (u1 u2 qr : String) (s1 s2 : ServerState) :
    mapGet u1 (onQrHandler render renderURL u1 qr s1).2.qrFiles = some (render qr) ∧
    mapGet u2 (onQrHandler render renderURL u2 qr s2).2.qrFiles = some (render qr) ∧
    (onQrHandler render renderURL u1 qr s1).1 = (onQrHandler render renderURL u2 qr s2).1 := by
  refine ⟨?_, ?_, rfl⟩ <;> simp [onQrHandler, mapGet_set_self]

/-- C9: the account-reading endpoints never expose the stored password:
for any two user stores equal up to password values, get-all-users and
get-user-by-id return identical responses, the register response is
identical as well, and the response record constructor is insensitive to
the password field (register and login responses are built from it). -/
theorem password_noninterference {users1 users2 : List User}
    (h : List.Forall₂ samePublicData users1 users2) :
    getAllUsersEndpoint users1 = getAllUsersEndpoint users2 ∧
    (∀ uid, getUserByIdEndpoint uid users1 = getUserByIdEndpoint uid users2) ∧
    (∀ genId now writeOk ef pf,
      (registerEndpoint genId now writeOk ef pf users1).1 =
        (registerEndpoint genId now writeOk ef pf users2).1) ∧
    (∀ u p, stripPassword { u with password := p } = stripPassword u) := by
  refine ⟨?_, ?_, ?_, ?_⟩
  · unfold getAllUsersEndpoint
    rw [map_stripPassword_eq h]
  · intro uid
    unfold getUserByIdEndpoint
    have hf := find_by_id_strip_eq uid h
    cases h1 : users1.find? (fun v => v.userId == uid) with
    | none =>
      cases h2 : users2.find? (fun v => v.userId == uid) with
      | none => rfl
      | some b => rw [h1, h2] at hf; simp at hf
    | some a =>
      cases h2 : users2.find? (fun v => v.userId == uid) with
      | none => rw [h1, h2] at hf; simp at hf
      | some b =>
        rw [h1, h2] at hf
        simp at hf
        simp [hf]
  · intro genId now writeOk ef pf
    by_cases h1 : (falsyStr ef || falsyStr pf) = true
    · simp [registerEndpoint, h1]
    · have hfind := find_by_email_isSome_eq (ef.getD "") h
      by_cases h2 : isValidEmail (ef.getD "") = true
      · by_cases h3 : (pf.getD "").length < 6
        · simp [registerEndpoint, h1, h2, h3]
        · by_cases h4 : (users1.find? (fun v => v.email == ef.getD "")).isSome = true
          · have h5 : (users2.find? (fun v => v.email == ef.getD "")).isSome = true := by
              rw [← hfind]; exact h4
            simp [registerEndpoint, h1, h2, h3, h4, h5]
          · have h5 : ¬(users2.find? (fun v => v.email == ef.getD "")).isSome = true := by
              rw [← hfind]; exact h4
            cases writeOk <;> simp [registerEndpoint, h1, h2, h3, h4, h5]
      · simp [registerEndpoint, h1, h2]
  · intro u p
    rfl

/-- Witness for C9: two singleton stores whose only difference is the
stored password produce identical responses. -/
theorem password_noninterference_witness :
    getAllUsersEndpoint [userA] = getAllUsersEndpoint [userB] ∧
    getUserByIdEndpoint "u1" [userA] = getUserByIdEndpoint "u1" [userB] :=
  ⟨(password_noninterference
      (List.Forall₂.cons ⟨rfl, rfl, rfl, rfl⟩ List.Forall₂.nil)).1,
   (password_noninterference
      (List.Forall₂.cons ⟨rfl, rfl, rfl, rfl⟩ List.Forall₂.nil)).2.1 "u1"⟩

/-- C10: registration rejects with a 400 validation error, and leaves the
durable user store untouched, every request whose email or password is
absent, whose email fails the format check, or whose password is shorter
than 6 characters. -/
theorem register_rejects_invalid (genId now : String) (writeOk : Bool)
    (ef pf : Option String) (users : List User)
    (h : ef = none ∨ pf = none ∨ isValidEmail (ef.getD "") = false ∨
      (pf.getD "").length < 6) :
    (registerEndpoint genId now writeOk ef pf users).2 = users ∧
    ∃ m, (registerEndpoint genId now writeOk ef pf users).1 = RegisterResult.badRequest m := by
  by_cases h1 : (falsyStr ef || falsyStr pf) = true
  · refine ⟨by simp [registerEndpoint, h1], "Email and password are required", ?_⟩
    simp [registerEndpoint, h1]
  · have hef : falsyStr ef = false := by
      cases hx : falsyStr ef
      · rfl
      · exact absurd (by simp [hx]) h1
    have hpf : falsyStr pf = false := by
      cases hx : falsyStr pf
      · rfl
      · exact absurd (by simp [hx]) h1
    have h4 : isValidEmail (ef.getD "") = false ∨ (pf.getD "").length < 6 := by
      rcases h with h | h | h | h
      · rw [h] at hef; simp [falsyStr] at hef
      · rw [h] at hpf; simp [falsyStr] at hpf
      · exact Or.inl h
      · exact Or.inr h
    rcases h4 with h4 | h4
    · refine ⟨by simp [registerEndpoint, h1, h4], "Please provide a valid email address", ?_⟩
      simp [registerEndpoint, h1, h4]
    · by_cases h5 : isValidEmail (ef.getD "") = true
      · refine ⟨by simp [registerEndpoint, h1, h5, h4],
          "Password must be at least 6 characters long", ?_⟩
        simp [registerEndpoint, h1, h5, h4]
      · have h5' : isValidEmail (ef.getD "") = false := by
          cases hx : isValidEmail (ef.getD "")
          · rfl
          · exact absurd hx h5
        refine ⟨by simp [registerEndpoint, h1, h5'], "Please provide a valid email address", ?_⟩
        simp [registerEndpoint, h1, h5']

/-- Witness for C10: a request with a malformed email and a long-enough
password is rejected and the empty store stays empty. -/
theorem register_rejects_invalid_witness :
    (registerEndpoint "id1" "t1" true (some "not-an-email") (some "longpassword") []).2 =
      ([] : List User) ∧
    ∃ m, (registerEndpoint "id1" "t1" true (some "not-an-email") (some "longpassword") []).1 =
      RegisterResult.badRequest m :=
  register_rejects_invalid "id1" "t1" true (some "not-an-email") (some "longpassword") []
    (Or.inr (Or.inr (Or.inl (by decide))))
